import Mathlib

/-!
Shallow embedding of the Sparkify data-lake ETL job (`etl.py`) and proofs
about the claims of its specification.

Modelling conventions, all derived from the source:
- A Spark DataFrame is a `List` of typed rows; every nullable column is an
  `Option`.  `DoubleType` columns are modelled as exact numerals (`Int`),
  which is faithful here because the pipeline only ever compares them for
  equality (dedup keys) or carries them through projections.
- `dropDuplicates()` (no subset) is modelled by `List.dedup`: it keeps one
  representative per distinct whole row; which representative Spark keeps is
  unspecified, and no claim depends on the choice.
- SQL equality inside a join predicate is `nullEq`: two null operands (or one)
  never compare equal, matching Spark's three-valued logic in a join condition.
- `monotonically_increasing_id()` is modelled as consecutive indices assigned
  after the dedup (`withIds`): Spark guarantees the generated ids are pairwise
  distinct within the run, which is the only property the code relies on.
- `DataFrame.write.parquet` carries Spark's default `errorifexists` save mode:
  the source never passes a `mode` argument.
- A partitioned parquet write lays the table out under one directory per
  distinct combination of partition-key values present in the rows; the
  partition columns are stored in the directory names, not in the data files.
  Reading a glob that points below the partition directories therefore yields
  only the data-file columns.
-/

/-- Page value that `process_log_data` filters on (line 81 of the source). -/
def nextSongPage : String := "NextSong"

/-- Output location of the songs table (line 58). -/
def pathSongs : String := "songs/"

/-- Output location of the artists table (line 66). -/
def pathArtists : String := "artists/"

/-- Output location of the users table (line 88). -/
def pathUsers : String := "users/"

/-- Output location of the time table (line 101). -/
def pathTime : String := "time/"

/-- Output location of the songplays table (line 130). -/
def pathSongplays : String := "songplays/"

/-- Message head of the error a parquet write raises in the default
`errorifexists` save mode when the destination already exists. -/
def pathExistsText : String := "path already exists: "

/-- Column name the users `selectExpr` actually asks for (line 84). -/
def userdIdCol : String := "userdId"

/-- Column name the users dedup subset asks for (line 85). -/
def userIdCol : String := "userId"

/-- Column name constants of the songs table (lines 54-55). -/
def titleCol : String := "title"

/-- Column name of the artist natural key. -/
def artistIdCol : String := "artist_id"

/-- Column name of the song year. -/
def yearCol : String := "year"

/-- Column name of the song duration. -/
def durationCol : String := "duration"

/-- Column name of the surrogate song key (line 55). -/
def songIdCol : String := "song_id"

/-- Columns of an event record, as fixed by the spec's `EventRecord` data
model (the source infers the schema from the JSON input; these are the fields
the spec declares and the code references). -/
def eventColumns : List String :=
  ["page", "userId", "firstName", "lastName", "gender", "level", "song",
   "artist", "sessionId", "location", "userAgent", "ts"]

/-- Columns of the users table after the aliasing `selectExpr` of line 84. -/
def usersOutputColumns : List String :=
  ["user_id", "first_name", "last_name", "gender", "level"]

/-- One song-metadata record, after the explicit read schema of lines 39-49.
Every field is nullable under that schema. -/
structure SongMeta where
  artist_id : Option String
  artist_latitude : Option Int
  artist_location : Option String
  artist_longitude : Option Int
  artist_name : Option String
  duration : Option Int
  num_songs : Option Int
  title : Option String
  year : Option Int
deriving DecidableEq, Repr

/-- The dedup key of the songs table: the projection of line 54,
`select(["title", "artist_id", "year", "duration"])`. -/
structure SongKey where
  title : Option String
  artist_id : Option String
  year : Option Int
  duration : Option Int
deriving DecidableEq, Repr

/-- Line 54: project each metadata record to the four song columns. -/
def songTuples (df : List SongMeta) : List SongKey :=
  df.map fun r => { title := r.title, artist_id := r.artist_id,
                    year := r.year, duration := r.duration }

/-- One row of the in-memory songs table (line 55), after
`withColumn("song_id", monotonically_increasing_id())`. -/
structure SongRow where
  title : Option String
  artist_id : Option String
  year : Option Int
  duration : Option Int
  song_id : Nat
deriving DecidableEq, Repr

/-- Attach the generated surrogate ids, one per surviving row, starting at a
given counter value.  Models `monotonically_increasing_id()` of line 55. -/
def withIds : List SongKey → Nat → List SongRow
  | [], _ => []
  | k :: ks, i =>
      { title := k.title, artist_id := k.artist_id, year := k.year,
        duration := k.duration, song_id := i } :: withIds ks (i + 1)

/-- Line 55: `df.select(song_columns).dropDuplicates().withColumn("song_id",
monotonically_increasing_id())`. -/
def songs_table (df : List SongMeta) : List SongRow :=
  withIds (songTuples df).dedup 0

/-- The dedup key of a songs-table row, for stating uniqueness. -/
def keyOf (r : SongRow) : SongKey :=
  { title := r.title, artist_id := r.artist_id, year := r.year,
    duration := r.duration }

/-- One row of the artists table, after the aliasing `selectExpr` of
lines 61-63. -/
structure ArtistRow where
  artist_id : Option String
  name : Option String
  location : Option String
  latitude : Option Int
  longitude : Option Int
deriving DecidableEq, Repr

/-- Lines 61-62: project a metadata record to the five artist columns. -/
def artistProj (r : SongMeta) : ArtistRow :=
  { artist_id := r.artist_id, name := r.artist_name,
    location := r.artist_location, latitude := r.artist_latitude,
    longitude := r.artist_longitude }

/-- Line 63: `df.selectExpr(artists_columns).dropDuplicates()` — note the
dedup has no subset argument, so it deduplicates by the whole row. -/
def artists_table (df : List SongMeta) : List ArtistRow :=
  (df.map artistProj).dedup

/-- One raw event-log row, with the fields the spec's `EventRecord` declares
and the code uses; `ts` is epoch milliseconds. -/
structure LogRow where
  page : Option String
  userId : Option String
  firstName : Option String
  lastName : Option String
  gender : Option String
  level : Option String
  song : Option String
  artist : Option String
  sessionId : Option Int
  location : Option String
  userAgent : Option String
  ts : Option Int
deriving DecidableEq, Repr

/-- Line 81: `df.filter(df.page == 'NextSong')`.  A null page never satisfies
the predicate (SQL three-valued logic). -/
def filterNextSong (rows : List LogRow) : List LogRow :=
  rows.filter fun r => decide (r.page = some nextSongPage)

/-- SQL equality as used in a join condition: null operands never match. -/
def nullEq {α : Type} [DecidableEq α] : Option α → Option α → Bool
  | some a, some b => decide (a = b)
  | _, _ => false

/-- One row of the songs table as read back from parquet at line 104.  The
glob `songs/*/*/*` addresses the data files below the two partition-directory
levels, so the partition columns `year` and `artist_id` are absent; only the
data-file columns survive. -/
structure SongDataRow where
  title : Option String
  duration : Option Int
  song_id : Nat
deriving DecidableEq, Repr

/-- The round trip of one in-memory songs row through the partitioned write of
line 58 and the glob read of line 104: partition columns are lost. -/
def roundTripSongRow (s : SongRow) : SongDataRow :=
  { title := s.title, duration := s.duration, song_id := s.song_id }

/-- One row of the time table: `start_time` plus the decomposed calendar
fields (the ISO week is not needed by any claim and is omitted). -/
structure TimeRow where
  start_time : Option Int
  hour : Option Int
  day : Option Int
  month : Option Int
  year : Option Int
  weekday : Option String
deriving DecidableEq, Repr

/-- Calendar date from a count of days since 1970-01-01, as (year, month,
day).  Standard civil-from-days conversion; all quantities are nonnegative
for the timestamps this pipeline sees. -/
def civilFromDays (z0 : Nat) : Nat × Nat × Nat :=
  let z := z0 + 719468
  let era := z / 146097
  let doe := z - era * 146097
  let yoe := (doe - doe / 1460 + doe / 36524 - doe / 146096) / 365
  let y := yoe + era * 400
  let doy := doe - (365 * yoe + yoe / 4 - yoe / 100)
  let mp := (5 * doy + 2) / 153
  let d := doy - (153 * mp + 2) / 5 + 1
  let m := if mp < 10 then mp + 3 else mp - 9
  (if m ≤ 2 then y + 1 else y, m, d)

/-- Short weekday names in epoch order: day 0 (1970-01-01) was a Thursday.
The names follow the `date_format(..., 'E')` abbreviation style. -/
def weekdayName (days : Nat) : String :=
  (["Thu", "Fri", "Sat", "Sun", "Mon", "Tue", "Wed"]).getD (days % 7) ""

/-- Calendar fields of one timestamp. -/
structure TimeFields where
  hour : Nat
  day : Nat
  month : Nat
  year : Nat
  weekday : String
deriving DecidableEq, Repr

/-- Modelled from the spec: decompose an epoch-milliseconds timestamp into
calendar fields under the documented UTC convention (spec section 4.5).  The
source's own time-table expression (lines 91-98) calls the undefined helpers
`get_datetime`, `date_convert`, `day` and `week` and its parenthesisation
does not balance, so the decomposition itself is taken from the spec's words;
the surrounding dedup structure (`select("start_time").dropDuplicates()`) is
taken from line 95 of the source. -/
def epochMsToUTC (ms : Nat) : TimeFields :=
  let s := ms / 1000
  let days := s / 86400
  let ymd := civilFromDays days
  { hour := (s % 86400) / 3600, day := ymd.2.2, month := ymd.2.1,
    year := ymd.1, weekday := weekdayName days }

/-- Build the time-table row of one distinct timestamp. -/
def mkTimeRow (t : Nat) : TimeRow :=
  let f := epochMsToUTC t
  { start_time := some (Int.ofNat t), hour := some (Int.ofNat f.hour),
    day := some (Int.ofNat f.day), month := some (Int.ofNat f.month),
    year := some (Int.ofNat f.year), weekday := some f.weekday }

/-- Line 95 onward: one time row per distinct `start_time` value of the
filtered events, with the calendar fields attached. -/
def timeRows (tss : List Nat) : List TimeRow :=
  tss.dedup.map mkTimeRow

/-- Line 107: `df.join(df_songs, df.song == df_songs.title)` — the join type
defaults to inner, so events without a title match are dropped here. -/
def songsLogs (events : List LogRow) (songs : List SongDataRow) :
    List (LogRow × SongDataRow) :=
  events.flatMap fun e =>
    (songs.filter fun s => nullEq e.song s.title).map fun s => (e, s)

/-- An event joined to its song and artist rows, the shape feeding the time
join of lines 111-114. -/
abbrev PreFact := LogRow × SongDataRow × ArtistRow

/-- Line 108: inner join of the previous result to the artists table on
`songs_logs.artist == df_artists.name` (the event's artist name against the
dimension's name column). -/
def artistsSongsLogs (sl : List (LogRow × SongDataRow))
    (artists : List ArtistRow) : List PreFact :=
  sl.flatMap fun es =>
    (artists.filter fun a => nullEq es.1.artist a.name).map fun a =>
      (es.1, es.2, a)

/-- One row of the songplays fact table, per the projection of
lines 116-127. -/
structure Songplay where
  start_time : Option Int
  user_id : Option String
  level : Option String
  song_id : Option Nat
  artist_id : Option String
  session_id : Option Int
  location : Option String
  user_agent : Option String
  year : Option Int
  month : Option Int
deriving DecidableEq, Repr

/-- Project one joined row to the songplays shape, with the year and month
coming from the time dimension side. -/
def mkSongplay (p : PreFact) (y m : Option Int) : Songplay :=
  { start_time := p.1.ts, user_id := p.1.userId, level := p.1.level,
    song_id := some p.2.1.song_id, artist_id := p.2.2.artist_id,
    session_id := p.1.sessionId, location := p.1.location,
    user_agent := p.1.userAgent, year := y, month := m }

/-- Lines 111-114 for a single joined row: the time join is a LEFT join
(`'left'` is passed explicitly), so a row without a matching `start_time`
is still emitted, with null year and month; a row with matches is emitted
once per match. -/
def timeJoinRow (p : PreFact) (times : List TimeRow) : List Songplay :=
  let ms := times.filter fun t => nullEq p.1.ts t.start_time
  if ms.isEmpty then [mkSongplay p none none]
  else ms.map fun t => mkSongplay p t.year t.month

/-- Lines 111-127: left join of the event/song/artist rows to the time
dimension, then projection to the fact shape. -/
def songplaysJoinTime (pre : List PreFact) (times : List TimeRow) :
    List Songplay :=
  pre.flatMap fun p => timeJoinRow p times

/-- The whole fact pipeline of lines 107-127: two inner joins against the
catalog, then the left join against the time dimension. -/
def songplays_table (events : List LogRow) (songs : List SongDataRow)
    (artists : List ArtistRow) (times : List TimeRow) : List Songplay :=
  songplaysJoinTime (artistsSongsLogs (songsLogs events songs) artists) times

/-- The destination state: the set of output locations that already hold
data.  Row contents are irrelevant to the save-mode semantics the claims
are about. -/
abbrev Store := List String

/-- One `write.parquet(path)` call.  The source passes no save mode, so
Spark's default `errorifexists` applies: the write fails if the location
already exists, and otherwise records the location as written. -/
def writeParquet (path : String) (st : Store) : Except String Store :=
  if path ∈ st then Except.error (pathExistsText ++ path)
  else Except.ok (path :: st)

/-- The five table writes one run performs, in source order (lines 58, 66,
88, 101, 130), threaded through the destination state. -/
def runWrites (st : Store) : Except String Store := do
  let st ← writeParquet pathSongs st
  let st ← writeParquet pathArtists st
  let st ← writeParquet pathUsers st
  let st ← writeParquet pathTime st
  writeParquet pathSongplays st

/-- The set of partition directories a `partitionBy(...).parquet(...)` call
creates: one per distinct combination of partition-key values present in the
rows. -/
def partitionPaths {α κ : Type} [DecidableEq κ] (key : α → κ)
    (rows : List α) : List κ :=
  (rows.map key).dedup

/-- Line 58: the songs table is partitioned by (year, artist_id). -/
def songsPartitionPaths (rows : List SongRow) : List (Option Int × Option String) :=
  partitionPaths (fun r => (r.year, r.artist_id)) rows

/-- Line 101: the time table is partitioned by (year, month). -/
def timePartitionPaths (rows : List TimeRow) : List (Option Int × Option Int) :=
  partitionPaths (fun r => (r.year, r.month)) rows

/-- Line 130: the songplays table is partitioned by (year, month). -/
def songplaysPartitionPaths (rows : List Songplay) : List (Option Int × Option Int) :=
  partitionPaths (fun r => (r.year, r.month)) rows

/-- The I/O steps of the run, named after what each one touches. -/
inductive Step where
  | readSongJson
  | writeSongsPq
  | writeArtistsPq
  | readLogJson
  | writeUsersPq
  | writeTimePq
  | readSongsPq
  | readArtistsPq
  | writeSongplaysPq
deriving DecidableEq, Repr

/-- The I/O steps of `process_song_data`, in source order. -/
def processSongDataSteps : List Step :=
  [Step.readSongJson, Step.writeSongsPq, Step.writeArtistsPq]

/-- The I/O steps of `process_log_data`, in source order (the catalog is read
back at lines 104-105, after the users and time writes). -/
def processLogDataSteps : List Step :=
  [Step.readLogJson, Step.writeUsersPq, Step.writeTimePq, Step.readSongsPq,
   Step.readArtistsPq, Step.writeSongplaysPq]

/-- Lines 140-141: `main` runs `process_song_data` to completion before
`process_log_data`. -/
def mainSteps : List Step := processSongDataSteps ++ processLogDataSteps

/-- Columns of the in-memory songs table written at line 58. -/
def songColumns : List String :=
  [titleCol, artistIdCol, yearCol, durationCol, songIdCol]

/-- Partition-key columns of the songs write (line 58). -/
def songPartitionColumns : List String := [yearCol, artistIdCol]

/-- Columns stored inside the parquet data files of the songs table: the
partition columns live in the directory names instead. -/
def songDataFileColumns : List String :=
  songColumns.filter fun c => decide (¬ c ∈ songPartitionColumns)

/-- Columns visible after the read of line 104: the glob `songs/*/*/*`
addresses the data files below the partition directories, so partition
discovery never runs and only the data-file columns come back. -/
def readBackSongColumns : List String := songDataFileColumns

/-- Sample artist natural key used by the concrete instances below. -/
def artistIdA : String := "A1"

/-- Sample artist name. -/
def artistNameA : String := "The As"

/-- Sample song title. -/
def titleX : String := "Song X"

/-- Sample artist location, first variant. -/
def locationP : String := "Paris"

/-- Sample artist location, second variant. -/
def locationQ : String := "Oslo"

/-- Second sample artist natural key. -/
def artistIdB : String := "B7"

/-- Second sample artist name. -/
def artistNameB : String := "The Bs"

/-- Second sample song title. -/
def titleY : String := "Song Y"

/-- Weekday abbreviation the spec expects for its example timestamp. -/
def thuAbbrev : String := "Thu"

/-- Weekday abbreviation the UTC decomposition actually yields for the spec's
example timestamp. -/
def friAbbrev : String := "Fri"

/-- The spec's example timestamp, epoch milliseconds (spec section 8). -/
def specExampleTs : Nat := 1541121934796

/-- A concrete metadata record for artist A1 with location `locationP`. -/
def metaA : SongMeta :=
  { artist_id := some artistIdA, artist_latitude := none,
    artist_location := some locationP, artist_longitude := none,
    artist_name := some artistNameA, duration := some 200,
    num_songs := some 1, title := some titleX, year := some 2003 }

/-- The same artist as `metaA` but with a differing location attribute. -/
def metaA2 : SongMeta :=
  { artist_id := some artistIdA, artist_latitude := none,
    artist_location := some locationQ, artist_longitude := none,
    artist_name := some artistNameA, duration := some 200,
    num_songs := some 1, title := some titleX, year := some 2003 }

/-- A concrete metadata record for a second artist. -/
def metaB : SongMeta :=
  { artist_id := some artistIdB, artist_latitude := none,
    artist_location := none, artist_longitude := none,
    artist_name := some artistNameB, duration := some 321,
    num_songs := some 1, title := some titleY, year := some 2000 }

/-- A concrete filtered (NextSong) event that matches nothing in an empty
catalog. -/
def ev1 : LogRow :=
  { page := some nextSongPage, userId := some ("26"),
    firstName := some ("Ryan"), lastName := some ("Smith"),
    gender := some ("M"), level := some ("free"),
    song := some ("Unknown Song"), artist := some ("Nobody"),
    sessionId := some 583, location := some ("San Jose"),
    userAgent := some ("Mozilla"), ts := some 1541121934796 }

/-- A concrete read-back songs-table row for `titleY`. -/
def songDataY : SongDataRow :=
  { title := some titleY, duration := some 321, song_id := 0 }

/-- The artists-table row of `metaB`. -/
def artistRowB : ArtistRow := artistProj metaB

/-- A concrete joined event/song/artist row feeding the time join. -/
def p0c : PreFact := (ev1, songDataY, artistRowB)

/-- A deduplicated list has the same `toFinset` as the original. -/
theorem dedup_toFinset {α : Type} [DecidableEq α] (l : List α) :
    l.dedup.toFinset = l.toFinset := by
  ext a; simp [List.mem_toFinset, List.mem_dedup]

/-- Permuted lists have equal `toFinset`. -/
theorem perm_toFinset {α : Type} [DecidableEq α] {l m : List α}
    (h : List.Perm l m) : l.toFinset = m.toFinset := by
  ext a; simp [List.mem_toFinset, h.mem_iff]

/-- The dedup keys survive the surrogate-id attachment unchanged. -/
theorem withIds_map_key (ks : List SongKey) (i : Nat) :
    (withIds ks i).map keyOf = ks := by
  induction ks generalizing i with
  | nil => rfl
  | cons k ks ih => simp [withIds, keyOf, ih]

/-- The attached surrogate ids are the consecutive range starting at the
counter value. -/
theorem withIds_map_id (ks : List SongKey) (i : Nat) :
    (withIds ks i).map SongRow.song_id = List.range' i ks.length := by
  induction ks generalizing i with
  | nil => rfl
  | cons k ks ih => simp [withIds, ih, List.range'_succ]

/-- Attaching surrogate ids preserves the row count. -/
theorem withIds_length (ks : List SongKey) (i : Nat) :
    (withIds ks i).length = ks.length := by
  induction ks generalizing i with
  | nil => rfl
  | cons k ks ih => simp [withIds, ih]

/-- C7: EventFilter's output contains exactly the input rows whose page field
equals "NextSong" — every retained row satisfies the predicate, the output
count equals the input count of such rows, and retained rows are the input
rows themselves (a sublist of the input), so no field is modified. -/
theorem C7_event_filter_exact (rows : List LogRow) :
    (∀ r ∈ filterNextSong rows, r.page = some nextSongPage) ∧
    (filterNextSong rows).length =
      rows.countP (fun r => decide (r.page = some nextSongPage)) ∧
    List.Sublist (filterNextSong rows) rows := by
  refine ⟨?_, ?_, List.filter_sublist rows⟩
  · intro r hr
    have h := List.mem_filter.mp hr
    simpa using h.2
  · simp [filterNextSong, List.countP_eq_length_filter]

/-- C9: a partitioned write is addressable under exactly the partition-key
combinations present in the rows — every observed (year, artist_id) pair for
songs and every observed (year, month) pair for time and songplays, and no
combination absent from the data. -/
theorem C9_partition_paths_exact :
    (∀ (rows : List SongRow) k,
        k ∈ songsPartitionPaths rows ↔ ∃ r ∈ rows, (r.year, r.artist_id) = k) ∧
    (∀ (rows : List TimeRow) k,
        k ∈ timePartitionPaths rows ↔ ∃ r ∈ rows, (r.year, r.month) = k) ∧
    (∀ (rows : List Songplay) k,
        k ∈ songplaysPartitionPaths rows ↔ ∃ r ∈ rows, (r.year, r.month) = k) := by
  refine ⟨fun rows k => ?_, fun rows k => ?_, fun rows k => ?_⟩ <;>
    simp [songsPartitionPaths, timePartitionPaths, songplaysPartitionPaths,
      partitionPaths, List.mem_dedup, List.mem_map]

/-- C3 counterexample: two metadata records sharing `artist_id` "A1" but with
differing location attributes survive as two distinct rows of the artists
table, so an artistId does not appear in exactly one row. -/
theorem C3_counterexample :
    ((artists_table [metaA, metaA2]).countP
      (fun a => decide (a.artist_id = some artistIdA))) = 2 := by decide

/-- C3 amended: the artists table deduplicates by the whole projected row,
not by artistId — its rows are exactly the distinct
(artist_id, name, location, latitude, longitude) projections of the input,
each appearing once; the same artistId appears in several rows when the
attribute values differ. -/
theorem C3_artists_whole_row_dedup (df : List SongMeta) :
    (artists_table df).Nodup ∧
    (∀ a, a ∈ artists_table df ↔ a ∈ df.map artistProj) := by
  exact ⟨List.nodup_dedup _, fun a => List.mem_dedup⟩

/-- C4: the songs table carries the same set of distinct
(title, artist_id, year, duration) tuples for any row order of the input,
its row count equals the number of distinct tuples, the surrogate ids are
pairwise distinct, and each distinct tuple receives exactly one surrogate
(the key column-set of the output is duplicate-free). -/
theorem C4_song_catalog_dedup (df1 df2 : List SongMeta)
    (h : List.Perm df1 df2) :
    ((songs_table df1).map keyOf).toFinset =
      ((songs_table df2).map keyOf).toFinset ∧
    (songs_table df1).length = (songTuples df1).toFinset.card ∧
    ((songs_table df1).map SongRow.song_id).Nodup ∧
    ((songs_table df1).map keyOf).Nodup := by
  have hkey1 : (songs_table df1).map keyOf = (songTuples df1).dedup :=
    withIds_map_key _ 0
  have hkey2 : (songs_table df2).map keyOf = (songTuples df2).dedup :=
    withIds_map_key _ 0
  have hperm : List.Perm (songTuples df1) (songTuples df2) := h.map _
  refine ⟨?_, ?_, ?_, ?_⟩
  · rw [hkey1, hkey2, dedup_toFinset, dedup_toFinset]
    exact perm_toFinset hperm
  · rw [songs_table, withIds_length, ← dedup_toFinset,
      List.toFinset_card_of_nodup (List.nodup_dedup _)]
  · rw [songs_table, withIds_map_id]
    exact List.nodup_range' 0 _ 1 (by decide)
  · rw [hkey1]
    exact List.nodup_dedup _

/-- C4 witness: the catalog properties hold at a concrete two-record input
and its transposition. -/
theorem C4_witness :
    List.Perm [metaA, metaB] [metaB, metaA] ∧
    (((songs_table [metaA, metaB]).map keyOf).toFinset =
       ((songs_table [metaB, metaA]).map keyOf).toFinset ∧
     (songs_table [metaA, metaB]).length =
       (songTuples [metaA, metaB]).toFinset.card ∧
     ((songs_table [metaA, metaB]).map SongRow.song_id).Nodup ∧
     ((songs_table [metaA, metaB]).map keyOf).Nodup) :=
  ⟨by decide, C4_song_catalog_dedup [metaA, metaB] [metaB, metaA] (by decide)⟩

/-- C5: the users `selectExpr` of line 84 asks for the column `userdId`, a
misspelling absent from the event schema, and the dedup of line 85 asks for
`userId`, which no longer exists among the aliased output columns; either
reference makes the users stage fail to resolve instead of building the
claimed deduplicated users table. -/
theorem C5_users_select_unresolvable :
    userdIdCol ∉ eventColumns ∧ userIdCol ∉ usersOutputColumns := by decide

/-- C6 counterexample: under the documented UTC convention the spec's example
timestamp 1541121934796 decomposes to hour 1 on day 2 (a Friday), not to
hour 21 on day 1 (a Thursday): the claimed field values are not the UTC
decomposition. -/
theorem C6_counterexample :
    ¬ ((mkTimeRow specExampleTs).hour = some 21 ∧
       (mkTimeRow specExampleTs).day = some 1 ∧
       (mkTimeRow specExampleTs).month = some 11 ∧
       (mkTimeRow specExampleTs).year = some 2018 ∧
       (mkTimeRow specExampleTs).weekday = some thuAbbrev) := by decide

/-- C6 amended: the time dimension holds exactly one row per distinct
timestamp of the filtered stream (the start-time column is duplicate-free,
the row count equals the number of distinct timestamps, and every observed
timestamp contributes its row), and the UTC decomposition of epoch-ms
1541121934796 is hour 1, day 2, month 11, year 2018, weekday "Fri". -/
theorem C6_time_rows_amended (tss : List Nat) :
    ((timeRows tss).map TimeRow.start_time).Nodup ∧
    (timeRows tss).length = tss.toFinset.card ∧
    (∀ t ∈ tss, mkTimeRow t ∈ timeRows tss) ∧
    mkTimeRow specExampleTs =
      { start_time := some (Int.ofNat specExampleTs), hour := some 1,
        day := some 2, month := some 11, year := some 2018,
        weekday := some friAbbrev } := by
  refine ⟨?_, ?_, ?_, by decide⟩
  · have hmap : (timeRows tss).map TimeRow.start_time =
        tss.dedup.map (fun t => some (Int.ofNat t)) := by
      simp [timeRows, List.map_map]
      intro a ha
      rfl
    rw [hmap]
    refine List.Nodup.map ?_ (List.nodup_dedup tss)
    intro a b hab
    simpa using hab
  · rw [timeRows, List.length_map, ← dedup_toFinset,
      List.toFinset_card_of_nodup (List.nodup_dedup _)]
  · intro t ht
    exact List.mem_map_of_mem _ (List.mem_dedup.mpr ht)

/-- C1: with one filtered NextSong event and an empty song catalog (zero
matches), the fact pipeline of lines 107-127 emits zero rows, because the
event-to-catalog join of line 107 defaults to an inner join: the event is
dropped instead of being kept with null song/artist keys. -/
theorem C1_inner_join_drops_unmatched :
    (filterNextSong [ev1]).length = 1 ∧
    songplays_table (filterNextSong [ev1]) [] [] (timeRows [specExampleTs])
      = [] := by decide

/-- The time join emits at least one fact row per incoming joined row. -/
theorem one_le_timeJoinRow (p : PreFact) (times : List TimeRow) :
    1 ≤ (timeJoinRow p times).length := by
  unfold timeJoinRow
  by_cases h : (times.filter fun t => nullEq p.1.ts t.start_time).isEmpty
  · rw [if_pos h]; simp
  · rw [if_neg h, List.length_map]
    have hne : (times.filter fun t => nullEq p.1.ts t.start_time) ≠ [] := by
      intro hnil
      rw [hnil] at h
      exact h rfl
    exact List.length_pos_of_ne_nil hne

/-- The left join to the time dimension never shrinks the fact set. -/
theorem length_le_songplaysJoinTime (facts : List PreFact)
    (times : List TimeRow) :
    facts.length ≤ (songplaysJoinTime facts times).length := by
  induction facts with
  | nil => simp [songplaysJoinTime]
  | cons p ps ih =>
      have h1 := one_le_timeJoinRow p times
      simp only [songplaysJoinTime, List.flatMap_cons, List.length_append,
        List.length_cons] at ih ⊢
      omega

/-- C2 counterexample: a joined fact row whose timestamp has no matching
start time in the time dimension is emitted with null year and month — the
run does not fail, contradicting the claimed fail-fast behaviour. -/
theorem C2_counterexample :
    (songplaysJoinTime [p0c] []).length = 1 ∧
    (songplaysJoinTime [p0c] []).map Songplay.year = [none] ∧
    (songplaysJoinTime [p0c] []).map Songplay.month = [none] := by decide

/-- C2 amended: the join to the time dimension at lines 111-114 is a left
join with no integrity check — a fact row whose timestamp matches no
start time in the time dimension is still emitted, with null year and month,
and no row of the incoming fact set is dropped. -/
theorem C2_left_join_emits_nulls (p : PreFact) (facts : List PreFact)
    (times : List TimeRow) (hp : p ∈ facts)
    (hno : ∀ t ∈ times, nullEq p.1.ts t.start_time = false) :
    mkSongplay p none none ∈ songplaysJoinTime facts times ∧
    facts.length ≤ (songplaysJoinTime facts times).length := by
  refine ⟨?_, length_le_songplaysJoinTime facts times⟩
  refine List.mem_flatMap.mpr ⟨p, hp, ?_⟩
  have hnil : (times.filter fun t => nullEq p.1.ts t.start_time) = [] := by
    refine List.filter_eq_nil_iff.mpr ?_
    intro t ht
    simp [hno t ht]
  simp [timeJoinRow, hnil]

/-- C2 witness: the amended behaviour at a concrete joined row and an empty
time dimension. -/
theorem C2_witness :
    p0c ∈ ([p0c] : List PreFact) ∧
    (∀ t ∈ ([] : List TimeRow), nullEq p0c.1.ts t.start_time = false) ∧
    (mkSongplay p0c none none ∈ songplaysJoinTime [p0c] [] ∧
     ([p0c] : List PreFact).length ≤ (songplaysJoinTime [p0c] []).length) :=
  ⟨by decide, by intro t ht; simp at ht,
   C2_left_join_emits_nulls p0c [p0c] [] (by decide)
     (by intro t ht; simp at ht)⟩

/-- C8 counterexample: one run of the five table writes from an empty
destination succeeds, but running the pipeline a second time on the resulting
state fails (the default save mode is error-if-exists, not overwrite), so a
repeated run is not idempotent — it aborts. -/
theorem C8_counterexample :
    (runWrites []).isOk = true ∧
    ((runWrites []).bind runWrites).isOk = false := by decide

/-- C8 amended: each `write.parquet` call carries Spark's default
error-if-exists mode, so a first run against an empty destination succeeds
and records the five locations, while any run against a destination that
already holds the songs location fails at the songs write instead of
replacing or appending. -/
theorem C8_error_if_exists (st : Store) (h : pathSongs ∈ st) :
    runWrites st = Except.error (pathExistsText ++ pathSongs) ∧
    runWrites [] =
      Except.ok [pathSongplays, pathTime, pathUsers, pathArtists, pathSongs] := by
  constructor
  · unfold runWrites writeParquet
    rw [if_pos h]
    rfl
  · rfl

/-- C8 witness: the amended behaviour at a concrete destination state that
already holds the songs location. -/
theorem C8_witness :
    pathSongs ∈ ([pathSongs] : Store) ∧
    (runWrites [pathSongs] = Except.error (pathExistsText ++ pathSongs) ∧
     runWrites [] =
       Except.ok [pathSongplays, pathTime, pathUsers, pathArtists, pathSongs]) :=
  ⟨by decide, C8_error_if_exists [pathSongs] (by decide)⟩

/-- C10 counterexample: the songs table is written with `artist_id` as a
partition column, and the glob read of line 104 recovers only the data-file
columns, so the read-back songs table has lost the `artist_id` column — the
write-then-read round trip does not preserve the catalog contents. -/
theorem C10_counterexample :
    artistIdCol ∈ songColumns ∧ artistIdCol ∉ readBackSongColumns := by decide

/-- C10 amended: `main` finishes song-data processing before log-data
processing begins (each catalog write precedes the corresponding read-back),
and FactResolver joins against the read-back tables; however the read-back
songs table carries only the data-file columns title, duration and song_id —
the partition columns year and artist_id of the in-memory songs table are
lost by the glob read below the partition directories, while the surviving
columns of every row round-trip intact. -/
theorem C10_read_back_loses_partition_columns (rows : List SongRow) :
    List.indexOf Step.writeSongsPq mainSteps <
      List.indexOf Step.readSongsPq mainSteps ∧
    List.indexOf Step.writeArtistsPq mainSteps <
      List.indexOf Step.readArtistsPq mainSteps ∧
    readBackSongColumns = [titleCol, durationCol, songIdCol] ∧
    yearCol ∉ readBackSongColumns ∧
    artistIdCol ∉ readBackSongColumns ∧
    (rows.map roundTripSongRow).length = rows.length ∧
    (∀ s ∈ rows, roundTripSongRow s ∈ rows.map roundTripSongRow) := by
  refine ⟨by decide, by decide, by decide, by decide, by decide,
    List.length_map rows roundTripSongRow, ?_⟩
  intro s hs
  exact List.mem_map_of_mem roundTripSongRow hs
